import Mathlib

/-!
Shallow embedding of the dungeon-game runtime (`game.py`): the time-driven
animation engine, the player and enemy state machines, the tile collision
grid, and the level-loading orchestrator.  Wall-clock instants are modelled
as rationals (seconds); pixel and tile coordinates as integers.  Each
definition mirrors the corresponding Python function; the theorems at the
bottom settle the frozen claims.
-/

namespace Dngn

/-! ## Constants (module-level and per-instance constants of the source) -/

def TILE_SIZE : Int := 16

def MOVEMENT_COOLDOWN : ℚ := 15/100

def attack_duration : ℚ := 1/2

def hurt_duration : ℚ := 1

def invincibility_duration : ℚ := 3/2

def move_cooldown : ℚ := 3/10

def idle_duration : ℚ := 3

/-! ## AnimatedSprite -/

/-- One named animation clip: frame references (row, col) into the sprite
sheet, a per-frame duration in seconds, and a loop flag. -/
structure AnimClip where
  frames : List (Nat × Nat)
  duration : ℚ
  loop : Bool
deriving Repr, DecidableEq

/-- State of `AnimatedSprite`: the clip set and the current playback
position.  The pygame surface cache is rendering-only and not modelled. -/
structure AnimatedSprite where
  animations : List (String × AnimClip)
  current_animation : Option String
  current_frame : Nat
  last_frame_time : ℚ
  animation_finished : Bool
deriving Repr, DecidableEq

/-- `AnimatedSprite.__init__`: no clip active, frame 0, `last_frame_time = 0`. -/
def mkAnimatedSprite (anims : List (String × AnimClip)) : AnimatedSprite :=
  { animations := anims
    current_animation := none
    current_frame := 0
    last_frame_time := 0
    animation_finished := false }

/-- `AnimatedSprite.play_animation`: unknown names are a warning-only no-op;
otherwise if the clip changed or `reset` is set, restart it at frame 0. -/
def AnimatedSprite.play_animation (s : AnimatedSprite) (name : String)
    (reset : Bool) (now : ℚ) : AnimatedSprite :=
  if (s.animations.lookup name).isNone then s
  else if s.current_animation ≠ some name ∨ reset = true then
    { s with current_animation := some name
             current_frame := 0
             last_frame_time := now
             animation_finished := false }
  else s

/-- `AnimatedSprite.update`: when a clip is active and unfinished and a full
clip duration has elapsed, advance one frame; wrap to 0 when looping, else
clamp to the last frame and mark the animation finished. -/
def AnimatedSprite.update (s : AnimatedSprite) (now : ℚ) : AnimatedSprite :=
  match s.current_animation with
  | none => s
  | some name =>
    if s.animation_finished then s
    else
      match s.animations.lookup name with
      | none => s
      | some anim =>
        if anim.duration ≤ now - s.last_frame_time then
          if s.current_frame + 1 ≥ anim.frames.length then
            if anim.loop then
              { s with current_frame := 0, last_frame_time := now }
            else
              { s with current_frame := anim.frames.length - 1
                       last_frame_time := now
                       animation_finished := true }
          else
            { s with current_frame := s.current_frame + 1, last_frame_time := now }
        else s

/-- `AnimatedSprite.get_current_frame`. -/
def AnimatedSprite.get_current_frame (s : AnimatedSprite) : Option (Nat × Nat) :=
  match s.current_animation with
  | none => none
  | some name =>
    match s.animations.lookup name with
    | none => none
    | some anim => anim.frames.get? s.current_frame

/-! ## Player -/

/-- The player's clip set from `Player.__init__`. -/
def player_animations : List (String × AnimClip) :=
  [ ("idle_right", ⟨[(0,0),(0,1),(0,2)], 6/10, true⟩)
  , ("idle_left", ⟨[(1,0),(1,1),(1,2)], 6/10, true⟩)
  , ("walk_right", ⟨[(2,0),(2,1),(2,2),(2,3)], 6/10, true⟩)
  , ("walk_left", ⟨[(3,0),(3,1),(3,2),(3,3)], 6/10, true⟩)
  , ("hurt_right", ⟨[(4,1),(4,2),(4,3),(4,4),(4,5)], 6/10, false⟩)
  , ("hurt_left", ⟨[(5,1),(5,2),(5,3),(5,4),(5,5)], 6/10, false⟩) ]

/-- The sword clip set from `Player.__init__`. -/
def sword_animations : List (String × AnimClip) :=
  [ ("attack_left", ⟨[(0,0),(0,1),(0,2),(0,3),(0,4)], 1/10, false⟩)
  , ("attack_right", ⟨[(2,0),(2,1),(2,2),(2,3),(2,4)], 1/10, false⟩) ]

/-- Mutable state of the `Player` object.  Facing direction and the flags
are kept as in the source ("right"/"left" strings, booleans with start
timestamps).  The fixed durations live as module constants above. -/
structure Player where
  x : Int
  y : Int
  last_move_time : ℚ
  facing_direction : String
  is_moving : Bool
  movement_timer : ℚ
  is_attacking : Bool
  attack_start_time : ℚ
  is_hurt : Bool
  hurt_start_time : ℚ
  is_invincible : Bool
  invincibility_start_time : ℚ
  max_health : Int
  current_health : Int
  sprite : AnimatedSprite
  sword_sprite : AnimatedSprite
deriving Repr, DecidableEq

/-- `Player.__init__`: snap the position to the tile grid, full health,
all flags clear, start the idle-right clip (`now` is the construction
instant read from the wall clock). -/
def mkPlayer (x y : Int) (now : ℚ) : Player :=
  { x := (x.fdiv TILE_SIZE) * TILE_SIZE
    y := (y.fdiv TILE_SIZE) * TILE_SIZE
    last_move_time := 0
    facing_direction := "right"
    is_moving := false
    movement_timer := 0
    is_attacking := false
    attack_start_time := 0
    is_hurt := false
    hurt_start_time := 0
    is_invincible := false
    invincibility_start_time := 0
    max_health := 3
    current_health := 3
    sprite := (mkAnimatedSprite player_animations).play_animation "idle_right" true now
    sword_sprite := mkAnimatedSprite sword_animations }

/-- `Player.start_attack`: rejected while attacking or hurt; otherwise
start the attack timer and the facing-matched sword clip. -/
def Player.start_attack (p : Player) (now : ℚ) : Bool × Player :=
  if p.is_attacking || p.is_hurt then (false, p)
  else
    (true,
      { p with is_attacking := true
               attack_start_time := now
               sword_sprite :=
                 if p.facing_direction = "right" then
                   p.sword_sprite.play_animation "attack_right" true now
                 else
                   p.sword_sprite.play_animation "attack_left" true now })

/-- `Player.take_damage`: rejected while invincible or hurt; otherwise
decrement health (floored at 0), enter the hurt and invincibility windows,
cancel any attack and start the facing-matched hurt clip. -/
def Player.take_damage (p : Player) (damage : Int) (now : ℚ) : Bool × Player :=
  if p.is_invincible || p.is_hurt then (false, p)
  else
    (true,
      { p with current_health :=
                 if p.current_health - damage < 0 then 0
                 else p.current_health - damage
               is_hurt := true
               hurt_start_time := now
               is_invincible := true
               invincibility_start_time := now
               is_attacking := false
               sprite :=
                 if p.facing_direction = "right" then
                   p.sprite.play_animation "hurt_right" true now
                 else
                   p.sprite.play_animation "hurt_left" true now })

/-- `Player.is_dead`. -/
def Player.is_dead (p : Player) : Bool :=
  decide (p.current_health ≤ 0)

/-- Invincibility-expiry block of `Player.update`. -/
def Player.updateInvincibility (p : Player) (now : ℚ) : Player :=
  if p.is_invincible = true
      ∧ invincibility_duration ≤ now - p.invincibility_start_time then
    { p with is_invincible := false }
  else p

/-- Attack-expiry block of `Player.update`: the attack ends after its
duration, and while it runs the sword sprite advances. -/
def Player.updateAttack (p : Player) (now : ℚ) : Player :=
  if p.is_attacking = true then
    if attack_duration ≤ now - p.attack_start_time then
      { p with is_attacking := false }
    else
      { p with sword_sprite := p.sword_sprite.update now }
  else p

/-- Movement-timer block of `Player.update`: a move this tick keeps the
walk animation shown until now + 0.3 s. -/
def Player.updateMovementTimer (p : Player) (now : ℚ) : Player :=
  if p.is_moving = true then { p with movement_timer := now + 3/10 } else p

/-- Walking/idle clip choice of `Player.update` (skipped while attacking
or hurt). -/
def Player.updateAnimationChoice (p : Player) (now : ℚ) : Player :=
  if ¬ p.is_attacking = true ∧ ¬ p.is_hurt = true then
    if now < p.movement_timer then
      if p.facing_direction = "right" then
        { p with sprite := p.sprite.play_animation "walk_right" false now }
      else
        { p with sprite := p.sprite.play_animation "walk_left" false now }
    else
      if p.facing_direction = "right" then
        { p with sprite := p.sprite.play_animation "idle_right" false now }
      else
        { p with sprite := p.sprite.play_animation "idle_left" false now }
  else p

/-- The part of `Player.update` after the hurt-state handling (reached when
the player is not hurt, or the hurt window just expired this call): the
blocks above in source order, then the sprite advance and the moving-flag
reset. -/
def Player.updateRest (p : Player) (now : ℚ) : Player :=
  let p1 := p.updateInvincibility now
  let p2 := p1.updateAttack now
  let p3 := p2.updateMovementTimer now
  let p4 := p3.updateAnimationChoice now
  let p5 := { p4 with sprite := p4.sprite.update now }
  { p5 with is_moving := false }

/-- `Player.update`: the hurt state is addressed first and returns early
while its window is open; once expired the flag clears and the rest of the
per-frame state machine runs (invincibility expiry, attack expiry, the
walking/idle clip choice, sprite advance, moving-flag reset). -/
def Player.update (p : Player) (now : ℚ) : Player :=
  if p.is_hurt then
    if hurt_duration ≤ now - p.hurt_start_time then
      Player.updateRest { p with is_hurt := false } now
    else
      { p with sprite := p.sprite.update now }
  else Player.updateRest p now

/-- `Player.can_move`: not while attacking or hurt, and only after the
movement cooldown has elapsed. -/
def Player.can_move (p : Player) (current_time : ℚ) : Bool :=
  if p.is_attacking || p.is_hurt then false
  else decide (MOVEMENT_COOLDOWN ≤ current_time - p.last_move_time)

/-- `Player.move`: one tile per call, gated by `can_move`, no diagonals;
the facing direction is updated from the sign of `dx` before the boundary
check, and the position/cooldown/moving flag only on an in-bounds move. -/
def Player.move (p : Player) (dx dy : Int) (level_width level_height : Int)
    (current_time : ℚ) : Bool × Player :=
  if ¬ p.can_move current_time = true then (false, p)
  else if dx ≠ 0 ∧ dy ≠ 0 then (false, p)
  else
    let p :=
      if dx > 0 then { p with facing_direction := "right" }
      else if dx < 0 then { p with facing_direction := "left" }
      else p
    let new_x := p.x + dx * TILE_SIZE
    let new_y := p.y + dy * TILE_SIZE
    if dx ≠ 0 then
      if 0 ≤ new_x ∧ new_x ≤ level_width - TILE_SIZE then
        (true, { p with x := new_x, last_move_time := current_time, is_moving := true })
      else (false, p)
    else if dy ≠ 0 then
      if 0 ≤ new_y ∧ new_y ≤ level_height - TILE_SIZE then
        (true, { p with y := new_y, last_move_time := current_time, is_moving := true })
      else (false, p)
    else (false, p)

/-- Successive `Player.move` calls at fixed 1/20-second (0.05 s) ticks:
count how many of the requested moves succeed. -/
def runMoves (level_width level_height : Int) :
    Player → ℚ → List (Int × Int) → Nat
  | _, _, [] => 0
  | p, t, m :: ms =>
    let r := p.move m.1 m.2 level_width level_height t
    (if r.1 then 1 else 0) + runMoves level_width level_height r.2 (t + 1/20) ms

/-! ## Collision grid queries (`LevelLoader.is_tile_blocked` and friends) -/

/-- `LevelLoader.is_tile_blocked`: out-of-bounds tile coordinates are
blocked (height is the number of rows, width the length of row 0);
in-bounds queries read the grid cell. -/
def is_tile_blocked (grid : List (List Bool)) (tile_x tile_y : Int) : Bool :=
  if tile_x < 0 ∨ tile_y < 0 ∨ (grid.length : Int) ≤ tile_y
      ∨ ((grid.headD []).length : Int) ≤ tile_x then
    true
  else
    (grid.getD tile_y.toNat []).getD tile_x.toNat false

/-- `LevelLoader.is_position_blocked`: convert a pixel position to tile
coordinates by floor division and query the grid. -/
def is_position_blocked (grid : List (List Bool)) (pixel_x pixel_y : Int) : Bool :=
  is_tile_blocked grid (pixel_x.fdiv TILE_SIZE) (pixel_y.fdiv TILE_SIZE)

/-! ## Enemy -/

/-- The enemy rat's clip set from `Enemy.__init__`. -/
def enemy_animations : List (String × AnimClip) :=
  [ ("idle_right", ⟨[(0,0),(0,1)], 6/10, true⟩)
  , ("idle_left", ⟨[(1,0),(1,1)], 6/10, true⟩)
  , ("walk_right", ⟨[(2,0),(2,1),(2,2)], 4/10, true⟩)
  , ("walk_left", ⟨[(3,0),(3,1),(3,2)], 4/10, true⟩) ]

/-- Mutable state of an `Enemy`: grid-snapped position, the movement axis
and per-leg block budget, the moving/idle behaviour state with its timers,
and the sprite. -/
structure Enemy where
  x : Int
  y : Int
  enemy_type : String
  enemy_movement : String
  blocks : Int
  start_x : Int
  start_y : Int
  facing_direction : String
  movement_state : String
  blocks_moved : Int
  idle_start_time : ℚ
  last_move_time : ℚ
  sprite : AnimatedSprite
deriving Repr, DecidableEq

/-- `Enemy.__init__`: snap to the grid, face right, start in the moving
state with the walk-right clip. -/
def mkEnemy (x y : Int) (etype emove : String) (blocks : Int) (now : ℚ) : Enemy :=
  { x := (x.fdiv TILE_SIZE) * TILE_SIZE
    y := (y.fdiv TILE_SIZE) * TILE_SIZE
    enemy_type := etype
    enemy_movement := emove
    blocks := blocks
    start_x := (x.fdiv TILE_SIZE) * TILE_SIZE
    start_y := (y.fdiv TILE_SIZE) * TILE_SIZE
    facing_direction := "right"
    movement_state := "moving"
    blocks_moved := 0
    idle_start_time := 0
    last_move_time := 0
    sprite := (mkAnimatedSprite enemy_animations).play_animation "walk_right" true now }

/-- The horizontal step the enemy attempts ("right" = +1; vertical
movement reuses "right" to mean down). -/
def Enemy.stepDx (e : Enemy) : Int :=
  if e.enemy_movement = "horizontal" then
    (if e.facing_direction = "right" then 1 else -1)
  else 0

/-- The vertical step the enemy attempts. -/
def Enemy.stepDy (e : Enemy) : Int :=
  if e.enemy_movement = "vertical" then
    (if e.facing_direction = "right" then 1 else -1)
  else 0

/-- Play the facing-matched idle clip exactly as the duplicated
horizontal/vertical branches of `Enemy.update` do. -/
def Enemy.playIdleClip (e : Enemy) (now : ℚ) : AnimatedSprite :=
  if e.enemy_movement = "horizontal" then
    (if e.facing_direction = "right" then e.sprite.play_animation "idle_right" true now
     else e.sprite.play_animation "idle_left" true now)
  else if e.enemy_movement = "vertical" then
    (if e.facing_direction = "right" then e.sprite.play_animation "idle_right" true now
     else e.sprite.play_animation "idle_left" true now)
  else e.sprite

/-- Play the facing-matched walk clip (no reset), as the waiting branch of
the moving state does. -/
def Enemy.playWalkClip (e : Enemy) (reset : Bool) (now : ℚ) : AnimatedSprite :=
  if e.enemy_movement = "horizontal" then
    (if e.facing_direction = "right" then e.sprite.play_animation "walk_right" reset now
     else e.sprite.play_animation "walk_left" reset now)
  else if e.enemy_movement = "vertical" then
    (if e.facing_direction = "right" then e.sprite.play_animation "walk_right" reset now
     else e.sprite.play_animation "walk_left" reset now)
  else e.sprite

/-- `Enemy.update`: in the moving state, once `move_cooldown` has elapsed,
attempt one axis-locked step; a successful step advances the position and
the leg counter, entering idle when the counter reaches `blocks`; a blocked
step enters idle immediately and resets the counter.  In the idle state,
after `idle_duration`, flip facing and resume moving.  `grid` is the
collision grid of the `level_loader` argument (`none` when absent).  The
sprite is always advanced at the end. -/
def Enemy.update (e : Enemy) (grid : Option (List (List Bool))) (now : ℚ) : Enemy :=
  let e1 :=
    if e.movement_state = "moving" then
      if move_cooldown ≤ now - e.last_move_time then
        let new_x := e.x + e.stepDx * TILE_SIZE
        let new_y := e.y + e.stepDy * TILE_SIZE
        let canMove : Bool :=
          match grid with
          | some g => ! is_position_blocked g new_x new_y
          | none => true
        if canMove then
          let e2 := { e with x := new_x, y := new_y
                             blocks_moved := e.blocks_moved + 1
                             last_move_time := now }
          if e2.blocks_moved ≥ e2.blocks then
            let e3 := { e2 with movement_state := "idle"
                                idle_start_time := now
                                blocks_moved := 0 }
            { e3 with sprite := e3.playIdleClip now }
          else e2
        else
          let e3 := { e with movement_state := "idle"
                             idle_start_time := now
                             blocks_moved := 0 }
          { e3 with sprite := e3.playIdleClip now }
      else
        { e with sprite := e.playWalkClip false now }
    else if e.movement_state = "idle" then
      if idle_duration ≤ now - e.idle_start_time then
        let e2 := { e with facing_direction :=
                             if e.facing_direction = "right" then "left" else "right"
                           movement_state := "moving"
                           last_move_time := now }
        { e2 with sprite := e2.playWalkClip true now }
      else e
    else e
  { e1 with sprite := e1.sprite.update now }

/-! ## External tile-map data (the pytmx view of a level file) -/

/-- One frame of a Tiled per-tile animation: target gid and a duration in
milliseconds. -/
structure TmxFrame where
  gid : Nat
  duration : Int
deriving Repr, DecidableEq

/-- A free-form Tiled property value: depending on how the map file types
it, pytmx hands the loader an int or a raw string, unchanged. -/
inductive TmxValue where
  | int (n : Int)
  | str (s : String)
deriving Repr, DecidableEq

/-- A non-empty all-digit character run read as a number; anything else
is no parse. -/
def digitsToNat : List Char → Option Nat
  | [] => none
  | c :: cs =>
    (c :: cs).foldl
      (fun acc? ch =>
        acc?.bind fun acc =>
          if ch.isDigit then some (acc * 10 + (ch.toNat - 48)) else none)
      (some 0)

/-- An integer literal with an optional sign, as int() accepts it
(surrounding whitespace and digit separators are not modelled). -/
def strToInt? (s : String) : Option Int :=
  match s.data with
  | '-' :: cs => (digitsToNat cs).map (fun n => -(n : Int))
  | '+' :: cs => (digitsToNat cs).map (fun n => (n : Int))
  | cs => (digitsToNat cs).map (fun n => (n : Int))

/-- str.lower() on the object names, character by character (ASCII, as
the entity names are). -/
def pyLower (s : String) : String :=
  String.mk (s.data.map Char.toLower)

/-- Python's int() applied to a property value: ints pass through, a
string must spell an integer literal or the conversion raises
ValueError. -/
def pyInt : TmxValue → Except String Int
  | .int n => Except.ok n
  | .str s =>
    match strToInt? s with
    | some n => Except.ok n
    | none => Except.error ("invalid literal for int() with base 10: " ++ s)

/-- A placed object of an object layer, with the free-form properties the
loader reads (absent properties fall back to documented defaults; the
blocks property stays free-form because the loader itself runs int() on
it). -/
structure TmxObject where
  name : Option String
  x : Int
  y : Int
  enemy_type : Option String
  enemy_movement : Option String
  blocks : Option TmxValue
  music : Option String
deriving Repr, DecidableEq

/-- A named layer: tile layers carry (x, y, gid) cells (the pytmx layers
with a `data` attribute), object layers carry placed objects. -/
inductive TmxLayer where
  | tile (name : String) (cells : List (Nat × Nat × Nat))
  | objectGroup (name : String) (objects : List TmxObject)
deriving Repr, DecidableEq

/-- The parsed map data: dimensions, tile size, layers, and the per-gid
animation metadata pytmx exposes through tile properties. -/
structure TmxData where
  width : Nat
  height : Nat
  tilewidth : Nat
  tileheight : Nat
  layers : List TmxLayer
  tile_animations : List (Nat × List TmxFrame)
deriving Repr, DecidableEq

/-- Name of a layer (either kind). -/
def TmxLayer.name : TmxLayer → String
  | .tile n _ => n
  | .objectGroup n _ => n

/-- Find the first tile layer (a layer with cell data) with the given
name, as the loader's layer-search loops do. -/
def findTileLayer (tmx : TmxData) (nm : String) : Option (List (Nat × Nat × Nat)) :=
  tmx.layers.findSome? fun l =>
    match l with
    | .tile n cells => if n = nm then some cells else none
    | .objectGroup _ _ => none

/-- Find the first object layer with the given name. -/
def findObjectLayer (tmx : TmxData) (nm : String) : Option (List TmxObject) :=
  tmx.layers.findSome? fun l =>
    match l with
    | .tile _ _ => none
    | .objectGroup n objs => if n = nm then some objs else none

/-! ## Animated tiles -/

/-- State of an `AnimatedTile`: pixel position, source gid, the frame gids
with their shared duration, and the playback position. -/
structure AnimatedTile where
  x : Int
  y : Int
  tile_gid : Nat
  current_frame : Nat
  last_frame_time : ℚ
  frames : List Nat
  frame_duration : ℚ
deriving Repr, DecidableEq

/-- `AnimatedTile.__init__` plus `_load_animation_data`: take the frame
list from the map's per-gid animation metadata (the stored duration ends
up being the last frame's, in seconds); a tile without animation frames
degenerates to a single static frame with the 0.5 s default duration. -/
def mkAnimatedTile (x y : Int) (gid : Nat) (tmx : TmxData) (now : ℚ) : AnimatedTile :=
  match tmx.tile_animations.lookup gid with
  | some fs =>
    if fs.length > 0 then
      { x := x, y := y, tile_gid := gid, current_frame := 0, last_frame_time := now
        frames := fs.map (fun f => f.gid)
        frame_duration := (((fs.getLast?.map (fun f => f.duration)).getD 500 : Int) : ℚ) / 1000 }
    else
      { x := x, y := y, tile_gid := gid, current_frame := 0, last_frame_time := now
        frames := [gid], frame_duration := 5/10 }
  | none =>
      { x := x, y := y, tile_gid := gid, current_frame := 0, last_frame_time := now
        frames := [gid], frame_duration := 5/10 }

/-- `AnimatedTile.update`: single-frame tiles never animate; otherwise
advance cyclically once the frame duration has elapsed. -/
def AnimatedTile.update (t : AnimatedTile) (now : ℚ) : AnimatedTile :=
  if t.frames.length ≤ 1 then t
  else if t.frame_duration ≤ now - t.last_frame_time then
    { t with current_frame := (t.current_frame + 1) % t.frames.length
             last_frame_time := now }
  else t

/-! ## LevelLoader -/

/-- An entry of the loader's heterogeneous entity list. -/
inductive Entity where
  | player (p : Player)
  | enemy (e : Enemy)
deriving Repr, DecidableEq

/-- Per-entity update dispatch of `LevelLoader.update`: enemies receive the
loader's collision grid, the player updates on its own. -/
def Entity.update (ent : Entity) (grid : List (List Bool)) (now : ℚ) : Entity :=
  match ent with
  | .player p => .player (p.update now)
  | .enemy e => .enemy (e.update (some grid) now)

/-- State of the `LevelLoader`: the level sequence and index, the parsed
map data, the pre-rendered background (modelled as its list of blit
records), the entity list with the tracked player reference (modelled as
an index into the list, per the aliasing in the source), the collision
grid and the animated tiles. -/
structure LevelLoader where
  level_sequence : List String
  current_level_index : Nat
  tmx_data : Option TmxData
  bg_surface : Option (List (Nat × Nat × Nat))
  camera_x : Int
  camera_y : Int
  entities : List Entity
  player : Option Nat
  collision_grid : List (List Bool)
  animated_tiles : List AnimatedTile
deriving Repr, DecidableEq

/-- The tracked player object, or none when no player reference is held. -/
def LevelLoader.getPlayer (ll : LevelLoader) : Option Player :=
  match ll.player with
  | none => none
  | some i =>
    match ll.entities.get? i with
    | some (.player p) => some p
    | _ => none

/-- Write back the (aliased) tracked player into the entity list. -/
def LevelLoader.setPlayer (ll : LevelLoader) (p : Player) : LevelLoader :=
  match ll.player with
  | none => ll
  | some i => { ll with entities := ll.entities.set i (.player p) }

/-- `LevelLoader._create_collision_grid`: a height×width grid of false,
then every non-zero gid of the "colliders" tile layer marks its in-range
cell true; without a "colliders" layer the grid stays all-false. -/
def createCollisionGrid (tmx : TmxData) : List (List Bool) :=
  let grid0 := List.replicate tmx.height (List.replicate tmx.width false)
  match findTileLayer tmx "colliders" with
  | none => grid0
  | some cells =>
    cells.foldl
      (fun g c =>
        if c.2.2 ≠ 0 then
          if c.2.1 < tmx.height ∧ c.1 < tmx.width then
            g.set c.2.1 ((g.getD c.2.1 []).set c.1 true)
          else g
        else g)
      grid0

/-- `LevelLoader._render_background`: blit every non-empty cell of the
"background" then "colliders" layers at its pixel position. -/
def renderBackground (tmx : TmxData) : List (Nat × Nat × Nat) :=
  (["background", "colliders"].map fun nm =>
    match findTileLayer tmx nm with
    | none => []
    | some cells =>
      cells.filterMap fun c =>
        if c.2.2 ≠ 0 then some (c.1 * tmx.tilewidth, c.2.1 * tmx.tileheight, c.2.2)
        else none).flatten

/-- The object-dispatch loop of `_load_entities`: each object goes by
lowercased name; "player" is appended and becomes the tracked reference (a
later duplicate overwrites it), "enemy" runs int() on its free-form blocks
property and is appended, anything else (incl. "info") stores no entity.
The int() conversion raising aborts the loop: the second component carries
that error, and the first the entities and player reference built so
far (the partial state the exception leaves behind). -/
def loadEntitiesLoop (now : ℚ) :
    List TmxObject → List Entity → Option Nat →
    (List Entity × Option Nat) × Option String
  | [], acc, pidx => ((acc, pidx), none)
  | obj :: rest, acc, pidx =>
    let nm := pyLower (obj.name.getD "")
    if nm = "player" then
      loadEntitiesLoop now rest (acc ++ [Entity.player (mkPlayer obj.x obj.y now)])
        (some acc.length)
    else if nm = "enemy" then
      match pyInt (obj.blocks.getD (TmxValue.int 2)) with
      | Except.error e => ((acc, pidx), some e)
      | Except.ok b =>
        loadEntitiesLoop now rest
          (acc ++ [Entity.enemy (mkEnemy obj.x obj.y (obj.enemy_type.getD "rat")
            (obj.enemy_movement.getD "horizontal") b now)])
          pidx
    else loadEntitiesLoop now rest acc pidx

/-- `LevelLoader._load_entities`: the entity list and player reference are
cleared first, then rebuilt from the "entities" object layer; the second
component reports the error that aborted the loop, if any. -/
def loadEntities (tmx : TmxData) (now : ℚ) :
    (List Entity × Option Nat) × Option String :=
  match findObjectLayer tmx "entities" with
  | none => (([], none), none)
  | some objs => loadEntitiesLoop now objs [] none

/-- `LevelLoader._load_animated_tiles`: every non-empty cell of the
"animated" tile layer becomes an `AnimatedTile` at its pixel position. -/
def loadAnimatedTiles (tmx : TmxData) (now : ℚ) : List AnimatedTile :=
  match findTileLayer tmx "animated" with
  | none => []
  | some cells =>
    cells.filterMap fun c =>
      if c.2.2 ≠ 0 then
        some (mkAnimatedTile (c.1 * tmx.tilewidth) (c.2.1 * tmx.tileheight) c.2.2 tmx now)
      else none

/-- `LevelLoader.load_current_level`: past the end of the sequence, report
failure; otherwise the whole pipeline runs inside one try block.  The
external parse (`pytmx.load_pygame`) raising is caught with the loader
untouched; but when the parse succeeds, the map data, collision grid and
background are assigned in order before the entity rebuild runs, so a
failure inside `_load_entities` (the int() conversion of a malformed
blocks property) is caught only after those fields and the partially
rebuilt entity list have replaced the prior state (the animated tiles,
loaded last, do keep their prior value). -/
def LevelLoader.load_current_level (ll : LevelLoader)
    (fetch : String → Except String TmxData) (now : ℚ) : Bool × LevelLoader :=
  if ll.level_sequence.length ≤ ll.current_level_index then (false, ll)
  else
    match fetch (ll.level_sequence.getD ll.current_level_index "") with
    | .error _ => (false, ll)
    | .ok tmx =>
      let ll3 := { ll with tmx_data := some tmx
                           collision_grid := createCollisionGrid tmx
                           bg_surface := some (renderBackground tmx) }
      match loadEntities tmx now with
      | ((ents, pidx), some _) =>
        (false, { ll3 with entities := ents, player := pidx })
      | ((ents, pidx), none) =>
        (true, { ll3 with entities := ents
                          player := pidx
                          animated_tiles := loadAnimatedTiles tmx now })

/-- `LevelLoader.__init__` followed by the initial `load_current_level`. -/
def mkLevelLoader (seq : List String) (fetch : String → Except String TmxData)
    (now : ℚ) : LevelLoader :=
  let ll0 : LevelLoader :=
    { level_sequence := seq, current_level_index := 0, tmx_data := none
      bg_surface := none, camera_x := 0, camera_y := 0, entities := []
      player := none, collision_grid := [], animated_tiles := [] }
  (ll0.load_current_level fetch now).2

/-- `LevelLoader.next_level`. -/
def LevelLoader.next_level (ll : LevelLoader)
    (fetch : String → Except String TmxData) (now : ℚ) : Bool × LevelLoader :=
  LevelLoader.load_current_level { ll with current_level_index := ll.current_level_index + 1 }
    fetch now

/-- `LevelLoader.get_level_size` in pixels. -/
def LevelLoader.get_level_size (ll : LevelLoader) : Int × Int :=
  match ll.tmx_data with
  | some tmx => ((tmx.width * tmx.tilewidth : Nat), (tmx.height * tmx.tileheight : Nat))
  | none => (0, 0)

/-- `pygame.Rect.colliderect` for two TILE_SIZE squares: strict overlap on
both axes. -/
def rectsCollide (x1 y1 x2 y2 : Int) : Bool :=
  decide (x1 < x2 + TILE_SIZE) && decide (x2 < x1 + TILE_SIZE)
    && decide (y1 < y2 + TILE_SIZE) && decide (y2 < y1 + TILE_SIZE)

/-- The first enemy in entity-list order whose rectangle overlaps the
player's — the enemy at which the collision loop breaks. -/
def firstCollidingEnemy (p : Player) (ents : List Entity) : Option Enemy :=
  ents.findSome? fun ent =>
    match ent with
    | .enemy e => if rectsCollide p.x p.y e.x e.y then some e else none
    | .player _ => none

/-- `LevelLoader.check_player_enemy_collisions`: nothing happens without a
player or while the player is invincible; otherwise the player's rectangle
is tested against each enemy's in list order, and at the first overlap one
`take_damage(1)` is applied and the loop breaks. -/
def LevelLoader.check_player_enemy_collisions (ll : LevelLoader) (now : ℚ) : LevelLoader :=
  match ll.getPlayer with
  | none => ll
  | some p =>
    if p.is_invincible then ll
    else
      match firstCollidingEnemy p ll.entities with
      | none => ll
      | some _ => ll.setPlayer (p.take_damage 1 now).2

/-- `LevelLoader.update`: advance every animated tile, update every entity
(enemies with the collision grid), then run the single player–enemy
collision pass. -/
def LevelLoader.update (ll : LevelLoader) (now : ℚ) : LevelLoader :=
  let ll1 := { ll with
    animated_tiles := ll.animated_tiles.map (fun t : AnimatedTile => t.update now)
    entities := ll.entities.map (fun ent : Entity => ent.update ll.collision_grid now) }
  ll1.check_player_enemy_collisions now

/-- `LevelLoader.move_player`: without a player report false; with one,
refuse destinations whose tile is blocked, otherwise delegate to
`Player.move` with the level pixel size and the wall-clock time. -/
def LevelLoader.move_player (ll : LevelLoader) (dx dy : Int) (now : ℚ) :
    Bool × LevelLoader :=
  match ll.getPlayer with
  | none => (false, ll)
  | some p =>
    let size := ll.get_level_size
    let new_x := p.x + dx * TILE_SIZE
    let new_y := p.y + dy * TILE_SIZE
    if ¬ is_position_blocked ll.collision_grid new_x new_y = true then
      let r := p.move dx dy size.1 size.2 now
      (r.1, ll.setPlayer r.2)
    else (false, ll)

/-! ## Concrete scenario used by the damage-sequence claim -/

/-- A freshly spawned player: full health, no hurt/invincibility state. -/
def damageScenarioStart : Player := mkPlayer 0 0 0

/-- One spaced damage event: a frame update at time `t` (letting expired
hurt/invincibility windows clear) followed by `take_damage(1)` at `t`. -/
def dmgAt (p : Player) (t : ℚ) : Bool × Player :=
  (p.update t).take_damage 1 t

/-! ## Concrete scenario used by the failed-reload claim -/

/-- Prior loader state for the failed-reload scenario: a level already
loaded, with a blocked 1×1 collision grid to watch for clobbering. -/
def reloadScenarioLoader : LevelLoader :=
  { level_sequence := ["level-1"], current_level_index := 0, tmx_data := none
    bg_surface := none, camera_x := 0, camera_y := 0, entities := []
    player := none, collision_grid := [[true]], animated_tiles := [] }

/-- Map data that parses fine but whose enemy carries the non-numeric
blocks property "lots", so the entity rebuild raises inside int(). -/
def reloadScenarioTmx : TmxData :=
  { width := 1, height := 1, tilewidth := 16, tileheight := 16
    layers := [TmxLayer.objectGroup "entities"
      [{ name := some "Enemy", x := 0, y := 0, enemy_type := none
         enemy_movement := none, blocks := some (TmxValue.str "lots")
         music := none }]]
    tile_animations := [] }

/-! ## Theorems settling the claims

The kernel evaluates the model on concrete game states in the witnesses;
the arithmetic of the rational time domain is unsealed locally so that
`decide` can run it. -/

section ClaimProofs

attribute [local semireducible] Rat.ofScientific Rat.mul Rat.inv Rat.add Rat.sub

/-- Claim C1: every tile query with (tile_x, tile_y) outside
[0,width)×[0,height) of the collision grid returns blocked (true),
regardless of the grid's contents — the closed-world boundary invariant. -/
theorem c1_out_of_bounds_blocked (grid : List (List Bool)) (tile_x tile_y : Int)
    (h : tile_x < 0 ∨ tile_y < 0 ∨ (grid.length : Int) ≤ tile_y
        ∨ ((grid.headD []).length : Int) ≤ tile_x) :
    is_tile_blocked grid tile_x tile_y = true := by
  unfold is_tile_blocked
  rw [if_pos h]

/-- Witness for C1: the query (2, 0) on a 2×2 grid of free tiles is
blocked. -/
theorem c1_out_of_bounds_blocked_witness :
    is_tile_blocked [[false, false], [false, false]] 2 0 = true :=
  c1_out_of_bounds_blocked [[false, false], [false, false]] 2 0 (by decide)

/-- Claim C9, as frozen, is false: the loader's try block also covers the
rebuild steps, which mutate the loader before they can raise.  Reloading
over a prior level from map data whose enemy carries blocks = "lots"
fails int() during `_load_entities`, after the collision grid was already
replaced: the load reports false yet the prior grid is gone. -/
theorem c9_counterexample :
    (reloadScenarioLoader.load_current_level
      (fun _ => Except.ok reloadScenarioTmx) 0).1 = false ∧
    ¬ (reloadScenarioLoader.load_current_level
      (fun _ => Except.ok reloadScenarioTmx) 0).2.collision_grid
        = reloadScenarioLoader.collision_grid := by decide

/-- Claim C9 (amended): every failing load attempt is caught and surfaces
as a false return rather than raising.  When the failure is the external
parse step (missing file or unparseable map data), the prior loader state
is left untouched; when the parse succeeds and the entity rebuild fails
(a malformed blocks property), the attempt still returns false but leaves
the loader partially rebuilt — map data, collision grid and background
already replaced and the entity list and player reference holding what
was built before the error, with only the animated tiles keeping their
prior value. -/
theorem c9_load_failure_is_caught (ll : LevelLoader)
    (fetch : String → Except String TmxData) (now : ℚ) :
    (ll.level_sequence.length ≤ ll.current_level_index →
      ll.load_current_level fetch now = (false, ll)) ∧
    (∀ msg, fetch (ll.level_sequence.getD ll.current_level_index "") = Except.error msg →
      ll.load_current_level fetch now = (false, ll)) ∧
    (∀ tmx err, ¬ ll.level_sequence.length ≤ ll.current_level_index →
      fetch (ll.level_sequence.getD ll.current_level_index "") = Except.ok tmx →
      (loadEntities tmx now).2 = some err →
      ll.load_current_level fetch now
        = (false, { ll with tmx_data := some tmx
                            collision_grid := createCollisionGrid tmx
                            bg_surface := some (renderBackground tmx)
                            entities := (loadEntities tmx now).1.1
                            player := (loadEntities tmx now).1.2 })) := by
  refine ⟨?_, ?_, ?_⟩
  · intro h
    unfold LevelLoader.load_current_level
    rw [if_pos h]
  · intro msg h
    unfold LevelLoader.load_current_level
    split
    · rfl
    · rw [h]
  · intro tmx err hidx hok herr
    unfold LevelLoader.load_current_level
    rw [if_neg hidx, hok]
    dsimp only
    rcases hle : loadEntities tmx now with ⟨⟨ents, pidx⟩, e⟩
    rw [hle] at herr
    dsimp only at herr
    subst herr
    dsimp only

/-- Witness for the amended C9: reloading the scenario loader from the
malformed map returns false with the partially rebuilt state. -/
theorem c9_load_failure_is_caught_witness :
    LevelLoader.load_current_level reloadScenarioLoader
      (fun _ => Except.ok reloadScenarioTmx) 0
      = (false, { reloadScenarioLoader with
                  tmx_data := some reloadScenarioTmx
                  collision_grid := createCollisionGrid reloadScenarioTmx
                  bg_surface := some (renderBackground reloadScenarioTmx)
                  entities := (loadEntities reloadScenarioTmx 0).1.1
                  player := (loadEntities reloadScenarioTmx 0).1.2 }) :=
  (c9_load_failure_is_caught reloadScenarioLoader
      (fun _ => Except.ok reloadScenarioTmx) 0).2.2 reloadScenarioTmx
    "invalid literal for int() with base 10: lots" (by decide) rfl (by decide)

/-- Claim C10: `move_player` returns false with the loader unchanged when
the destination tile is blocked, and likewise when no player exists —
collision is checked at the orchestrator level. -/
theorem c10_move_player_blocked (ll : LevelLoader) (dx dy : Int) (now : ℚ) :
    (ll.getPlayer = none → ll.move_player dx dy now = (false, ll)) ∧
    (∀ p : Player, ll.getPlayer = some p →
      is_position_blocked ll.collision_grid (p.x + dx * TILE_SIZE)
        (p.y + dy * TILE_SIZE) = true →
      ll.move_player dx dy now = (false, ll)) := by
  unfold LevelLoader.move_player
  constructor
  · intro h; rw [h]
  · intro p hp hb; rw [hp]; simp only [hb, not_true_eq_false, if_neg]
    simp

/-- Witness for C10: a loader whose tracked player sits on an empty grid
(everything out of bounds is blocked) refuses every move. -/
theorem c10_move_player_blocked_witness :
    LevelLoader.move_player
      { level_sequence := [], current_level_index := 0, tmx_data := none
        bg_surface := none, camera_x := 0, camera_y := 0
        entities := [Entity.player (mkPlayer 0 0 0)]
        player := some 0, collision_grid := [], animated_tiles := [] } 1 0 1 =
    (false,
      { level_sequence := [], current_level_index := 0, tmx_data := none
        bg_surface := none, camera_x := 0, camera_y := 0
        entities := [Entity.player (mkPlayer 0 0 0)]
        player := some 0, collision_grid := [], animated_tiles := [] }) :=
  (c10_move_player_blocked _ 1 0 1).2 (mkPlayer 0 0 0) (by decide) (by decide)

/-- Claim C2, as frozen, is false: a move rejected for an out-of-bounds
destination still updates the facing direction.  With a fresh player at
x = 0 facing right, `move(-1, 0)` (cooldown elapsed) returns false yet
leaves the player facing left. -/
theorem c2_counterexample :
    ((mkPlayer 0 0 0).move (-1) 0 320 240 1).1 = false ∧
    ((mkPlayer 0 0 0).move (-1) 0 320 240 1).2.facing_direction = "left" ∧
    (mkPlayer 0 0 0).facing_direction = "right" := by decide

/-- Claim C2 (amended): a rejected `Player.move` leaves position,
`last_move_time` and the moving flag unchanged, and also leaves the facing
direction unchanged except when the rejection is due to an out-of-bounds
destination, in which case facing is still updated from the sign of `dx`;
on success the position moves exactly one tile, facing follows the sign of
`dx` (unchanged on pure vertical moves), `last_move_time` is recorded and
the moving flag set. -/
theorem c2_move_rejected_state (p : Player) (dx dy level_width level_height : Int)
    (t : ℚ) :
    ((p.move dx dy level_width level_height t).1 = false →
      (p.move dx dy level_width level_height t).2.x = p.x ∧
      (p.move dx dy level_width level_height t).2.y = p.y ∧
      (p.move dx dy level_width level_height t).2.last_move_time = p.last_move_time ∧
      (p.move dx dy level_width level_height t).2.is_moving = p.is_moving ∧
      ((p.move dx dy level_width level_height t).2.facing_direction = p.facing_direction ∨
        (¬ (0 ≤ p.x + dx * TILE_SIZE ∧ p.x + dx * TILE_SIZE ≤ level_width - TILE_SIZE) ∧
          ((0 < dx ∧
              (p.move dx dy level_width level_height t).2.facing_direction = "right") ∨
           (dx < 0 ∧
              (p.move dx dy level_width level_height t).2.facing_direction = "left"))))) ∧
    ((p.move dx dy level_width level_height t).1 = true →
      (p.move dx dy level_width level_height t).2.x = p.x + dx * TILE_SIZE ∧
      (p.move dx dy level_width level_height t).2.y = p.y + dy * TILE_SIZE ∧
      (p.move dx dy level_width level_height t).2.last_move_time = t ∧
      (p.move dx dy level_width level_height t).2.is_moving = true ∧
      ((0 < dx ∧ (p.move dx dy level_width level_height t).2.facing_direction = "right") ∨
       (dx < 0 ∧ (p.move dx dy level_width level_height t).2.facing_direction = "left") ∨
       (dx = 0 ∧
         (p.move dx dy level_width level_height t).2.facing_direction
           = p.facing_direction))) := by
  unfold Player.move
  by_cases h1 : p.can_move t = true
  case neg =>
    rw [if_pos (by simpa using h1)]
    exact ⟨fun _ => ⟨rfl, rfl, rfl, rfl, Or.inl rfl⟩, fun h => Bool.noConfusion h⟩
  case pos =>
    rw [if_neg (by simpa using h1)]
    by_cases h2 : dx ≠ 0 ∧ dy ≠ 0
    · rw [if_pos h2]
      exact ⟨fun _ => ⟨rfl, rfl, rfl, rfl, Or.inl rfl⟩, fun h => Bool.noConfusion h⟩
    · rw [if_neg h2]
      rcases lt_trichotomy (0 : Int) dx with hdx | hdx | hdx
      · have hdxne : dx ≠ 0 := by omega
        have hdy : dy = 0 := by by_contra hne; exact h2 ⟨hdxne, hne⟩
        rw [if_pos hdx, if_pos hdxne]
        by_cases h6 : 0 ≤ p.x + dx * TILE_SIZE ∧ p.x + dx * TILE_SIZE ≤ level_width - TILE_SIZE
        · rw [if_pos h6]
          exact ⟨fun h => Bool.noConfusion h,
            fun _ => ⟨rfl, by simp [hdy], rfl, rfl, Or.inl ⟨hdx, rfl⟩⟩⟩
        · rw [if_neg h6]
          exact ⟨fun _ => ⟨rfl, rfl, rfl, rfl, Or.inr ⟨h6, Or.inl ⟨hdx, rfl⟩⟩⟩,
            fun h => Bool.noConfusion h⟩
      · have hdxz : ¬ dx ≠ 0 := by omega
        rw [if_neg hdxz, if_neg (show ¬ dx > 0 by omega),
          if_neg (show ¬ dx < 0 by omega)]
        by_cases h7 : dy ≠ 0
        · rw [if_pos h7]
          by_cases h8 : 0 ≤ p.y + dy * TILE_SIZE ∧ p.y + dy * TILE_SIZE ≤ level_height - TILE_SIZE
          · rw [if_pos h8]
            exact ⟨fun h => Bool.noConfusion h,
              fun _ => ⟨by simp [← hdx], rfl, rfl, rfl, Or.inr (Or.inr ⟨hdx.symm, rfl⟩)⟩⟩
          · rw [if_neg h8]
            exact ⟨fun _ => ⟨rfl, rfl, rfl, rfl, Or.inl rfl⟩, fun h => Bool.noConfusion h⟩
        · rw [if_neg h7]
          exact ⟨fun _ => ⟨rfl, rfl, rfl, rfl, Or.inl rfl⟩, fun h => Bool.noConfusion h⟩
      · have hdxne : dx ≠ 0 := by omega
        have hdy : dy = 0 := by by_contra hne; exact h2 ⟨hdxne, hne⟩
        rw [if_pos hdxne, if_neg (show ¬ dx > 0 by omega), if_pos hdx]
        by_cases h6 : 0 ≤ p.x + dx * TILE_SIZE ∧ p.x + dx * TILE_SIZE ≤ level_width - TILE_SIZE
        · rw [if_pos h6]
          exact ⟨fun h => Bool.noConfusion h,
            fun _ => ⟨rfl, by simp [hdy], rfl, rfl, Or.inr (Or.inl ⟨hdx, rfl⟩)⟩⟩
        · rw [if_neg h6]
          exact ⟨fun _ => ⟨rfl, rfl, rfl, rfl, Or.inr ⟨h6, Or.inr ⟨hdx, rfl⟩⟩⟩,
            fun h => Bool.noConfusion h⟩

/-- Claim C3: from max_health = 3 and current_health = 3, three damage
events spaced beyond the invincibility window (here 2 s apart: hits at
t = 0, 2, 4 with a frame update before each later hit) all succeed and
leave current_health = 0 with is_dead true; a fourth spaced event leaves
health at 0; and in general `take_damage` never drives a non-negative
health negative. -/
theorem c3_damage_sequence_floors_health :
    ((damageScenarioStart.take_damage 1 0).1 = true ∧
     (dmgAt (damageScenarioStart.take_damage 1 0).2 2).1 = true ∧
     (dmgAt (dmgAt (damageScenarioStart.take_damage 1 0).2 2).2 4).1 = true ∧
     (dmgAt (dmgAt (damageScenarioStart.take_damage 1 0).2 2).2 4).2.current_health = 0 ∧
     (dmgAt (dmgAt (damageScenarioStart.take_damage 1 0).2 2).2 4).2.is_dead = true ∧
     (dmgAt (dmgAt (dmgAt (damageScenarioStart.take_damage 1 0).2 2).2 4).2 6).2.current_health
       = 0) ∧
    (∀ (p : Player) (damage : Int) (t : ℚ), 0 ≤ p.current_health →
      0 ≤ ((p.take_damage damage t).2).current_health) := by
  constructor
  · decide
  · intro p damage t h
    unfold Player.take_damage
    split
    · exact h
    · dsimp only
      split
      · exact le_refl 0
      · omega

/-- Witness for C3: applying the general floor clause to a fresh player. -/
theorem c3_damage_sequence_floors_health_witness :
    0 ≤ (((mkPlayer 0 0 0).take_damage 1 0).2).current_health :=
  c3_damage_sequence_floors_health.2 (mkPlayer 0 0 0) 1 0 (by decide)

/-- A successful `take_damage` opens the invincibility window at the hit
instant. -/
theorem take_damage_success_state (p : Player) (damage : Int) (t : ℚ)
    (h : (p.take_damage damage t).1 = true) :
    (p.take_damage damage t).2.is_invincible = true ∧
    (p.take_damage damage t).2.invincibility_start_time = t := by
  by_cases hc : (p.is_invincible || p.is_hurt) = true
  · unfold Player.take_damage at h
    rw [if_pos hc] at h
    exact Bool.noConfusion h
  · unfold Player.take_damage
    rw [if_neg hc]
    exact ⟨rfl, rfl⟩

/-- A rejected `take_damage` (player invincible) returns false and the
exact same player state. -/
theorem take_damage_rejected_when_invincible (p : Player) (damage : Int) (t : ℚ)
    (h : p.is_invincible = true) :
    p.take_damage damage t = (false, p) := by
  unfold Player.take_damage
  rw [if_pos (by simp [h])]

/-- Inside the open invincibility window the expiry block is a no-op. -/
theorem updateInvincibility_window_open (p : Player) (now : ℚ)
    (hwin : now - p.invincibility_start_time < invincibility_duration) :
    p.updateInvincibility now = p := by
  unfold Player.updateInvincibility
  rw [if_neg (show ¬(p.is_invincible = true ∧
      invincibility_duration ≤ now - p.invincibility_start_time) from
    fun hc => absurd hc.2 (not_le.mpr hwin))]

/-- The invincibility-expiry block never touches the window start or the
health. -/
theorem updateInvincibility_keeps (p : Player) (now : ℚ) :
    (p.updateInvincibility now).invincibility_start_time
      = p.invincibility_start_time ∧
    (p.updateInvincibility now).current_health = p.current_health := by
  unfold Player.updateInvincibility
  split_ifs <;> exact ⟨rfl, rfl⟩

/-- The attack-expiry block touches neither the invincibility state nor
the health. -/
theorem updateAttack_keeps (p : Player) (now : ℚ) :
    (p.updateAttack now).is_invincible = p.is_invincible ∧
    (p.updateAttack now).invincibility_start_time = p.invincibility_start_time ∧
    (p.updateAttack now).current_health = p.current_health := by
  unfold Player.updateAttack
  split_ifs <;> exact ⟨rfl, rfl, rfl⟩

/-- The movement-timer block touches neither the invincibility state nor
the health. -/
theorem updateMovementTimer_keeps (p : Player) (now : ℚ) :
    (p.updateMovementTimer now).is_invincible = p.is_invincible ∧
    (p.updateMovementTimer now).invincibility_start_time
      = p.invincibility_start_time ∧
    (p.updateMovementTimer now).current_health = p.current_health := by
  unfold Player.updateMovementTimer
  split_ifs <;> exact ⟨rfl, rfl, rfl⟩

/-- The clip-choice block touches neither the invincibility state nor the
health. -/
theorem updateAnimationChoice_keeps (p : Player) (now : ℚ) :
    (p.updateAnimationChoice now).is_invincible = p.is_invincible ∧
    (p.updateAnimationChoice now).invincibility_start_time
      = p.invincibility_start_time ∧
    (p.updateAnimationChoice now).current_health = p.current_health := by
  unfold Player.updateAnimationChoice
  split_ifs <;> exact ⟨rfl, rfl, rfl⟩

/-- The post-hurt part of the frame update, run inside the open
invincibility window, preserves the invincibility fields and health. -/
theorem updateRest_keeps_invincibility (p : Player) (now : ℚ)
    (hwin : now - p.invincibility_start_time < invincibility_duration) :
    (p.updateRest now).is_invincible = p.is_invincible ∧
    (p.updateRest now).invincibility_start_time = p.invincibility_start_time ∧
    (p.updateRest now).current_health = p.current_health := by
  unfold Player.updateRest
  rw [updateInvincibility_window_open p now hwin]
  dsimp only
  have h2 := updateAttack_keeps p now
  have h3 := updateMovementTimer_keeps (p.updateAttack now) now
  have h4 := updateAnimationChoice_keeps
    ((p.updateAttack now).updateMovementTimer now) now
  refine ⟨?_, ?_, ?_⟩
  · show ((((p.updateAttack now).updateMovementTimer now).updateAnimationChoice
      now).is_invincible) = p.is_invincible
    rw [h4.1, h3.1, h2.1]
  · show ((((p.updateAttack now).updateMovementTimer now).updateAnimationChoice
      now).invincibility_start_time) = p.invincibility_start_time
    rw [h4.2.1, h3.2.1, h2.2.1]
  · show ((((p.updateAttack now).updateMovementTimer now).updateAnimationChoice
      now).current_health) = p.current_health
    rw [h4.2.2, h3.2.2, h2.2.2]

/-- A frame update inside the open invincibility window neither clears the
flag nor moves its start time, and never touches health. -/
theorem update_keeps_invincibility (p : Player) (now : ℚ)
    (hinv : p.is_invincible = true)
    (hwin : now - p.invincibility_start_time < invincibility_duration) :
    (p.update now).is_invincible = true ∧
    (p.update now).invincibility_start_time = p.invincibility_start_time ∧
    (p.update now).current_health = p.current_health := by
  unfold Player.update
  by_cases hh : p.is_hurt = true
  · rw [if_pos hh]
    by_cases he : hurt_duration ≤ now - p.hurt_start_time
    · rw [if_pos he]
      have hr := updateRest_keeps_invincibility { p with is_hurt := false } now hwin
      exact ⟨by rw [hr.1]; exact hinv, hr.2.1, hr.2.2⟩
    · rw [if_neg he]
      exact ⟨hinv, rfl, rfl⟩
  · rw [if_neg hh]
    have hr := updateRest_keeps_invincibility p now hwin
    exact ⟨by rw [hr.1]; exact hinv, hr.2.1, hr.2.2⟩

/-- Folding frame updates that all land inside the invincibility window
keeps the player invincible with unchanged health. -/
theorem foldl_update_keeps_invincibility (us : List ℚ) (t1 : ℚ) :
    ∀ p : Player, p.is_invincible = true → p.invincibility_start_time = t1 →
    (∀ u ∈ us, u - t1 < invincibility_duration) →
    (us.foldl (fun a u => a.update u) p).is_invincible = true ∧
    (us.foldl (fun a u => a.update u) p).invincibility_start_time = t1 ∧
    (us.foldl (fun a u => a.update u) p).current_health = p.current_health := by
  induction us with
  | nil => intro p h1 h2 _; exact ⟨h1, h2, rfl⟩
  | cons u us ih =>
    intro p h1 h2 hall
    have hu : u - t1 < invincibility_duration := hall u (List.mem_cons_self u us)
    have hk := update_keeps_invincibility p u h1 (by rw [h2]; exact hu)
    have hrest := ih (p.update u) hk.1 (hk.2.1.trans h2)
      (fun v hv => hall v (List.mem_cons_of_mem u hv))
    exact ⟨hrest.1, hrest.2.1, hrest.2.2.trans hk.2.2⟩

/-- Claim C4: when two `take_damage` calls land within the 1.5 s
invincibility window of each other (with any number of frame updates in
between, all inside the window), only the first decrements health: the
second finds the player still invincible, returns false and leaves the
player state exactly unchanged. -/
theorem c4_second_hit_in_window_rejected (p : Player) (damage : Int)
    (t1 t2 : ℚ) (us : List ℚ)
    (hfirst : (p.take_damage damage t1).1 = true)
    (hus : ∀ u ∈ us, u - t1 < invincibility_duration)
    (ht2 : t2 - t1 < invincibility_duration) :
    ((us.foldl (fun a u => a.update u) (p.take_damage damage t1).2).take_damage 1 t2).1
      = false ∧
    ((us.foldl (fun a u => a.update u) (p.take_damage damage t1).2).take_damage 1 t2).2
      = us.foldl (fun a u => a.update u) (p.take_damage damage t1).2 ∧
    (us.foldl (fun a u => a.update u) (p.take_damage damage t1).2).current_health
      = (p.take_damage damage t1).2.current_health := by
  have hs := take_damage_success_state p damage t1 hfirst
  have hf := foldl_update_keeps_invincibility us t1 (p.take_damage damage t1).2
    hs.1 hs.2 hus
  have hrej := take_damage_rejected_when_invincible
    (us.foldl (fun a u => a.update u) (p.take_damage damage t1).2) 1 t2 hf.1
  rw [hrej]
  exact ⟨rfl, rfl, hf.2.2⟩

/-- Witness for C4: a fresh player hit at t = 0, updated at t = 1, and hit
again at t = 1.2 takes only the first hit. -/
theorem c4_second_hit_in_window_rejected_witness :
    (([(1 : ℚ)].foldl (fun a u => a.update u)
        ((mkPlayer 0 0 0).take_damage 1 0).2).take_damage 1 (12/10)).1 = false :=
  (c4_second_hit_in_window_rejected (mkPlayer 0 0 0) 1 0 (12/10) [(1 : ℚ)]
    (by decide) (by decide) (by decide)).1

/-- A move requested before the cooldown has elapsed is rejected with the
player state exactly unchanged. -/
theorem move_cooldown_rejects (p : Player) (dx dy level_width level_height : Int)
    (t : ℚ) (h : t - p.last_move_time < MOVEMENT_COOLDOWN) :
    p.move dx dy level_width level_height t = (false, p) := by
  have hcm : p.can_move t = false := by
    unfold Player.can_move
    split
    · rfl
    · exact decide_eq_false (not_le.mpr h)
  unfold Player.move
  rw [hcm]
  rw [if_pos (show ¬ false = true from Bool.noConfusion)]

/-- A successful move happened at least one cooldown after the previous
one and records the new time. -/
theorem move_success_cooldown_met (p : Player) (dx dy level_width level_height : Int)
    (t : ℚ) (h : (p.move dx dy level_width level_height t).1 = true) :
    MOVEMENT_COOLDOWN ≤ t - p.last_move_time ∧
    (p.move dx dy level_width level_height t).2.last_move_time = t := by
  by_cases hcm : p.can_move t = true
  · have hcool : MOVEMENT_COOLDOWN ≤ t - p.last_move_time := by
      unfold Player.can_move at hcm
      split at hcm
      · exact Bool.noConfusion hcm
      · exact of_decide_eq_true hcm
    refine ⟨hcool, ?_⟩
    unfold Player.move at h ⊢
    rw [if_neg (by simpa using hcm)] at h ⊢
    by_cases h2 : dx ≠ 0 ∧ dy ≠ 0
    · rw [if_pos h2] at h
      exact Bool.noConfusion h
    · rw [if_neg h2] at h ⊢
      dsimp only at h ⊢
      split_ifs at h ⊢ <;> first | rfl | exact Bool.noConfusion h
  · unfold Player.move at h
    rw [if_pos (by simpa using hcm)] at h
    exact Bool.noConfusion h

/-- The move counter over five consecutive 0.05 s ticks: for any tick list
of length n, at most (n + 2) / 3 of the calls can succeed, because each
success restarts the 0.15 s cooldown and so blocks the next two ticks. -/
theorem runMoves_le_div3 (level_width level_height : Int) :
    ∀ (n : Nat) (ms : List (Int × Int)), ms.length = n →
      ∀ (p : Player) (t : ℚ),
        runMoves level_width level_height p t ms ≤ (n + 2) / 3 := by
  intro n
  induction n using Nat.strong_induction_on with
  | _ n ih =>
    intro ms hlen p t
    cases ms with
    | nil => simpa [runMoves] using Nat.zero_le _
    | cons m ms2 =>
      have hlen2 : n = ms2.length + 1 := by simpa using hlen.symm
      cases hb : (p.move m.1 m.2 level_width level_height t).1 with
      | false =>
        have hrest := ih (n - 1) (by omega) ms2 (by omega)
          (p.move m.1 m.2 level_width level_height t).2 (t + 1/20)
        have hstep : runMoves level_width level_height p t (m :: ms2)
            = runMoves level_width level_height
                (p.move m.1 m.2 level_width level_height t).2 (t + 1/20) ms2 := by
          simp [runMoves, hb]
        rw [hstep]
        exact le_trans hrest (Nat.div_le_div_right (by omega))
      | true =>
        have hsucc := move_success_cooldown_met p m.1 m.2 level_width level_height t hb
        cases ms2 with
        | nil =>
          have hn : n = 1 := by simpa using hlen.symm
          subst hn
          have hstep : runMoves level_width level_height p t [m] = 1 := by
            simp [runMoves, hb]
          rw [hstep]
        | cons m3 ms3 =>
          have hfail2 : (p.move m.1 m.2 level_width level_height t).2.move m3.1 m3.2
              level_width level_height (t + 1/20)
              = (false, (p.move m.1 m.2 level_width level_height t).2) := by
            apply move_cooldown_rejects
            rw [hsucc.2]
            unfold MOVEMENT_COOLDOWN
            linarith
          have e1 : runMoves level_width level_height p t (m :: m3 :: ms3)
              = (if (p.move m.1 m.2 level_width level_height t).1 = true then 1 else 0)
                + runMoves level_width level_height
                    (p.move m.1 m.2 level_width level_height t).2 (t + 1/20)
                    (m3 :: ms3) := rfl
          have e2 : runMoves level_width level_height
              (p.move m.1 m.2 level_width level_height t).2 (t + 1/20) (m3 :: ms3)
              = (if ((p.move m.1 m.2 level_width level_height t).2.move m3.1 m3.2
                    level_width level_height (t + 1/20)).1 = true then 1 else 0)
                + runMoves level_width level_height
                    ((p.move m.1 m.2 level_width level_height t).2.move m3.1 m3.2
                      level_width level_height (t + 1/20)).2
                    (t + 1/20 + 1/20) ms3 := rfl
          have c1 : (if (true = true) then (1 : Nat) else 0) = 1 := rfl
          have c0 : (if (false = true) then (1 : Nat) else 0) = 0 := rfl
          cases ms3 with
          | nil =>
            have hn : n = 2 := by simpa using hlen.symm
            subst hn
            rw [e1, e2, hb, hfail2]
            dsimp only
            rw [c1, c0]
            have hnil : runMoves level_width level_height
                (p.move m.1 m.2 level_width level_height t).2
                (t + 1/20 + 1/20) [] = 0 := rfl
            rw [hnil]
          | cons m4 ms4 =>
            have hfail3 : (p.move m.1 m.2 level_width level_height t).2.move m4.1 m4.2
                level_width level_height (t + 1/20 + 1/20)
                = (false, (p.move m.1 m.2 level_width level_height t).2) := by
              apply move_cooldown_rejects
              rw [hsucc.2]
              unfold MOVEMENT_COOLDOWN
              linarith
            have e3 : runMoves level_width level_height
                ((p.move m.1 m.2 level_width level_height t).2.move m3.1 m3.2
                  level_width level_height (t + 1/20)).2
                (t + 1/20 + 1/20) (m4 :: ms4)
                = (if (((p.move m.1 m.2 level_width level_height t).2.move m3.1 m3.2
                      level_width level_height (t + 1/20)).2.move m4.1 m4.2
                      level_width level_height (t + 1/20 + 1/20)).1 = true then 1 else 0)
                  + runMoves level_width level_height
                      (((p.move m.1 m.2 level_width level_height t).2.move m3.1 m3.2
                        level_width level_height (t + 1/20)).2.move m4.1 m4.2
                        level_width level_height (t + 1/20 + 1/20)).2
                      (t + 1/20 + 1/20 + 1/20) ms4 := rfl
            have hlen4 : ms4.length + 3 = n := by simpa using hlen
            have hrest := ih (n - 3) (by omega) ms4 (by omega)
              (p.move m.1 m.2 level_width level_height t).2 (t + 1/20 + 1/20 + 1/20)
            have hdiv : (n - 3 + 2) / 3 + 1 = (n + 2) / 3 := by
              have h3 : n - 3 + 2 + 3 = n + 2 := by omega
              rw [← h3]
              exact (Nat.add_div_right _ (by norm_num : (0 : ℕ) < 3)).symm
            rw [e1, e2, e3, hb, hfail2]
            dsimp only
            rw [hfail3]
            dsimp only
            rw [c1, c0]
            omega

/-- Claim C5: a `Player.move` call strictly inside the movement cooldown
returns false with the player unchanged; consequently any sequence of at
most five calls at fixed 0.05 s ticks yields at most two successful
moves. -/
theorem c5_cooldown_limits_moves :
    (∀ (p : Player) (dx dy level_width level_height : Int) (t : ℚ),
      t - p.last_move_time < MOVEMENT_COOLDOWN →
      p.move dx dy level_width level_height t = (false, p)) ∧
    (∀ (level_width level_height : Int) (p : Player) (t : ℚ)
        (ms : List (Int × Int)), ms.length ≤ 5 →
      runMoves level_width level_height p t ms ≤ 2) := by
  constructor
  · exact fun p dx dy lw lh t h => move_cooldown_rejects p dx dy lw lh t h
  · intro lw lh p t ms hlen
    calc runMoves lw lh p t ms
        ≤ (ms.length + 2) / 3 := runMoves_le_div3 lw lh ms.length ms rfl p t
      _ ≤ 7 / 3 := Nat.div_le_div_right (by omega)
      _ = 2 := by norm_num

/-- Witness for C5: a fresh player (last move at 0) asked to move again at
t = 0.1 is refused, and five right-move requests at 0.05 s ticks from
t = 1 succeed at most twice. -/
theorem c5_cooldown_limits_moves_witness :
    (mkPlayer 0 0 0).move 1 0 320 240 (1/10) = (false, mkPlayer 0 0 0) ∧
    runMoves 320 240 (mkPlayer 0 0 0) 1 [(1,0),(1,0),(1,0),(1,0),(1,0)] ≤ 2 :=
  ⟨c5_cooldown_limits_moves.1 (mkPlayer 0 0 0) 1 0 320 240 (1/10) (by decide),
   c5_cooldown_limits_moves.2 320 240 (mkPlayer 0 0 0) 1
     [(1,0),(1,0),(1,0),(1,0),(1,0)] (by decide)⟩

/-- Claim C6: an enemy in the moving state whose due step (cooldown
elapsed) is blocked transitions to idle in that same update — regardless
of how many blocks of the leg were walked — resetting the leg counter to
0, with its position unchanged and the idle timer started at `now`. -/
theorem c6_blocked_step_goes_idle (e : Enemy) (g : List (List Bool)) (now : ℚ)
    (hstate : e.movement_state = "moving")
    (hcool : move_cooldown ≤ now - e.last_move_time)
    (hblocked : is_position_blocked g (e.x + e.stepDx * TILE_SIZE)
      (e.y + e.stepDy * TILE_SIZE) = true) :
    (e.update (some g) now).movement_state = "idle" ∧
    (e.update (some g) now).blocks_moved = 0 ∧
    (e.update (some g) now).x = e.x ∧
    (e.update (some g) now).y = e.y ∧
    (e.update (some g) now).idle_start_time = now := by
  unfold Enemy.update
  rw [if_pos hstate, if_pos hcool]
  dsimp only
  rw [hblocked]
  rw [if_neg (show ¬ ((!true) = true) by simp)]
  exact ⟨rfl, rfl, rfl, rfl, rfl⟩

/-- Witness for C6: a freshly spawned horizontal enemy at the origin of a
1×1 grid has its step to tile (1,0) blocked (out of bounds) and idles. -/
theorem c6_blocked_step_goes_idle_witness :
    ((mkEnemy 0 0 "rat" "horizontal" 2 0).update (some [[true]]) 1).movement_state
      = "idle" ∧
    ((mkEnemy 0 0 "rat" "horizontal" 2 0).update (some [[true]]) 1).x
      = (mkEnemy 0 0 "rat" "horizontal" 2 0).x :=
  ⟨(c6_blocked_step_goes_idle (mkEnemy 0 0 "rat" "horizontal" 2 0) [[true]] 1
      (by decide) (by decide) (by decide)).1,
   (c6_blocked_step_goes_idle (mkEnemy 0 0 "rat" "horizontal" 2 0) [[true]] 1
      (by decide) (by decide) (by decide)).2.2.1⟩

/-- Characterisation of the tracked player: an index into the entity list
holding a player entity. -/
theorem getPlayer_some_iff (ll : LevelLoader) (p : Player) :
    ll.getPlayer = some p ↔
    ∃ i, ll.player = some i ∧ ll.entities.get? i = some (Entity.player p) := by
  unfold LevelLoader.getPlayer
  constructor
  · intro h
    cases hpi : ll.player with
    | none => rw [hpi] at h; exact Option.noConfusion h
    | some i =>
      rw [hpi] at h
      dsimp only at h
      cases hge : ll.entities.get? i with
      | none => rw [hge] at h; exact Option.noConfusion h
      | some ent =>
        cases ent with
        | player q =>
          rw [hge] at h
          dsimp only at h
          exact ⟨i, rfl, by rw [hge, Option.some.inj h]⟩
        | enemy e => rw [hge] at h; exact Option.noConfusion h
  · intro ⟨i, hpi, hge⟩
    rw [hpi]
    dsimp only
    rw [hge]

/-- Writing the tracked player back yields it as the new tracked player. -/
theorem setPlayer_getPlayer (ll : LevelLoader) (q q2 : Player)
    (h : ll.getPlayer = some q) :
    (ll.setPlayer q2).getPlayer = some q2 := by
  obtain ⟨i, hpi, hge⟩ := (getPlayer_some_iff ll q).mp h
  have hlt : i < ll.entities.length := (List.get?_eq_some.mp hge).1
  apply (getPlayer_some_iff _ _).mpr
  refine ⟨i, ?_, ?_⟩
  · unfold LevelLoader.setPlayer
    rw [hpi]
  · unfold LevelLoader.setPlayer
    rw [hpi]
    exact List.get?_set_eq_of_lt _ hlt

/-- The post-hurt part of the frame update never changes health. -/
theorem updateRest_preserves_health (p : Player) (now : ℚ) :
    (p.updateRest now).current_health = p.current_health := by
  unfold Player.updateRest
  dsimp only
  show ((((p.updateInvincibility now).updateAttack now).updateMovementTimer
    now).updateAnimationChoice now).current_health = p.current_health
  rw [(updateAnimationChoice_keeps _ now).2.2, (updateMovementTimer_keeps _ now).2.2,
    (updateAttack_keeps _ now).2.2, (updateInvincibility_keeps _ now).2]

/-- The per-frame player update never changes health. -/
theorem update_preserves_health (p : Player) (now : ℚ) :
    (p.update now).current_health = p.current_health := by
  unfold Player.update
  split_ifs
  · exact updateRest_preserves_health _ now
  · rfl
  · exact updateRest_preserves_health _ now

/-- One `take_damage(1)` event lowers health by at most one point. -/
theorem take_damage_health_bound (p : Player) (t : ℚ) :
    p.current_health - 1 ≤ (p.take_damage 1 t).2.current_health := by
  unfold Player.take_damage
  split_ifs <;> dsimp only <;> omega

/-- Through one collision pass, the tracked player loses at most one
health point. -/
theorem check_collisions_health_bound (ll : LevelLoader) (now : ℚ)
    (q0 q1 : Player) (h0 : ll.getPlayer = some q0)
    (h1 : (ll.check_player_enemy_collisions now).getPlayer = some q1) :
    q0.current_health - 1 ≤ q1.current_health := by
  unfold LevelLoader.check_player_enemy_collisions at h1
  rw [h0] at h1
  dsimp only at h1
  by_cases hinv : q0.is_invincible = true
  · rw [if_pos hinv] at h1
    rw [h0] at h1
    rw [← Option.some.inj h1]
    omega
  · rw [if_neg hinv] at h1
    cases hfc : firstCollidingEnemy q0 ll.entities with
    | none =>
      rw [hfc] at h1
      dsimp only at h1
      rw [h0] at h1
      rw [← Option.some.inj h1]
      omega
    | some e =>
      rw [hfc] at h1
      dsimp only at h1
      have hset := setPlayer_getPlayer ll q0 (q0.take_damage 1 now).2 h0
      rw [hset] at h1
      rw [← Option.some.inj h1]
      exact take_damage_health_bound q0 now

/-- Claim C7: the orchestrator runs exactly one collision pass per frame:
nothing happens without a player or while the player is invincible; with a
vulnerable player the enemies are scanned in list order and the first
overlap applies a single `take_damage(1)`, so one whole update decrements
the player's health by at most one point no matter how many enemies
overlap. -/
theorem c7_one_damage_per_frame (ll : LevelLoader) (now : ℚ) :
    (ll.getPlayer = none → ll.check_player_enemy_collisions now = ll) ∧
    (∀ p : Player, ll.getPlayer = some p → p.is_invincible = true →
      ll.check_player_enemy_collisions now = ll) ∧
    (∀ p : Player, ll.getPlayer = some p → p.is_invincible = false →
      firstCollidingEnemy p ll.entities = none →
      ll.check_player_enemy_collisions now = ll) ∧
    (∀ (p : Player) (e : Enemy), ll.getPlayer = some p →
      p.is_invincible = false → firstCollidingEnemy p ll.entities = some e →
      ll.check_player_enemy_collisions now
        = ll.setPlayer (p.take_damage 1 now).2) ∧
    (∀ p0 p1 : Player, ll.getPlayer = some p0 →
      (ll.update now).getPlayer = some p1 →
      p0.current_health - 1 ≤ p1.current_health) := by
  refine ⟨?_, ?_, ?_, ?_, ?_⟩
  · intro h
    unfold LevelLoader.check_player_enemy_collisions
    rw [h]
  · intro p hp hinv
    unfold LevelLoader.check_player_enemy_collisions
    rw [hp]
    dsimp only
    rw [if_pos hinv]
  · intro p hp hinv hnone
    unfold LevelLoader.check_player_enemy_collisions
    rw [hp]
    dsimp only
    rw [if_neg (by rw [hinv]; exact Bool.noConfusion), hnone]
  · intro p e hp hinv hsome
    unfold LevelLoader.check_player_enemy_collisions
    rw [hp]
    dsimp only
    rw [if_neg (by rw [hinv]; exact Bool.noConfusion), hsome]
  · intro p0 p1 h0 h1
    obtain ⟨i, hpi, hge⟩ := (getPlayer_some_iff ll p0).mp h0
    unfold LevelLoader.update at h1
    dsimp only at h1
    have hmid : LevelLoader.getPlayer
        { ll with
          animated_tiles := ll.animated_tiles.map (fun t : AnimatedTile => t.update now)
          entities := ll.entities.map
            (fun ent : Entity => ent.update ll.collision_grid now) }
        = some (p0.update now) := by
      apply (getPlayer_some_iff _ _).mpr
      refine ⟨i, hpi, ?_⟩
      show (ll.entities.map (fun ent : Entity => ent.update ll.collision_grid now)).get? i
        = some (Entity.player (p0.update now))
      rw [List.get?_map, hge]
      rfl
    have hb := check_collisions_health_bound _ now (p0.update now) p1 hmid h1
    rw [update_preserves_health p0 now] at hb
    exact hb

/-- Witness for C7: in a loader with one player and one overlapping enemy,
the collision pass applies the single damage event. -/
theorem c7_one_damage_per_frame_witness :
    LevelLoader.check_player_enemy_collisions
      { level_sequence := [], current_level_index := 0, tmx_data := none
        bg_surface := none, camera_x := 0, camera_y := 0
        entities := [Entity.player (mkPlayer 0 0 0),
                     Entity.enemy (mkEnemy 0 0 "rat" "horizontal" 2 0)]
        player := some 0, collision_grid := [], animated_tiles := [] } 1
      = LevelLoader.setPlayer
          { level_sequence := [], current_level_index := 0, tmx_data := none
            bg_surface := none, camera_x := 0, camera_y := 0
            entities := [Entity.player (mkPlayer 0 0 0),
                         Entity.enemy (mkEnemy 0 0 "rat" "horizontal" 2 0)]
            player := some 0, collision_grid := [], animated_tiles := [] }
          ((mkPlayer 0 0 0).take_damage 1 1).2 :=
  (c7_one_damage_per_frame _ 1).2.2.2.1 (mkPlayer 0 0 0)
    (mkEnemy 0 0 "rat" "horizontal" 2 0) (by decide) (by decide) (by decide)

/-- One sprite tick that advances inside the clip: the frame index moves
up by one and the frame clock restarts. -/
theorem sprite_step_advance (s : AnimatedSprite) (name : String) (anim : AnimClip)
    (now : ℚ) (hcur : s.current_animation = some name)
    (hfin : s.animation_finished = false)
    (hlook : s.animations.lookup name = some anim)
    (ht : anim.duration ≤ now - s.last_frame_time)
    (hlt : s.current_frame + 1 < anim.frames.length) :
    s.update now = { s with current_frame := s.current_frame + 1
                            last_frame_time := now } := by
  unfold AnimatedSprite.update
  rw [hcur]
  dsimp only
  rw [hfin]
  rw [if_neg (show ¬ false = true from Bool.noConfusion)]
  rw [hlook]
  dsimp only
  rw [if_pos ht, if_neg (not_le.mpr hlt)]

/-- One sprite tick that advances past the end of a looping clip wraps the
index to 0. -/
theorem sprite_step_wrap (s : AnimatedSprite) (name : String) (anim : AnimClip)
    (now : ℚ) (hcur : s.current_animation = some name)
    (hfin : s.animation_finished = false)
    (hlook : s.animations.lookup name = some anim)
    (ht : anim.duration ≤ now - s.last_frame_time)
    (hge : anim.frames.length ≤ s.current_frame + 1)
    (hloop : anim.loop = true) :
    s.update now = { s with current_frame := 0, last_frame_time := now } := by
  unfold AnimatedSprite.update
  rw [hcur]
  dsimp only
  rw [hfin]
  rw [if_neg (show ¬ false = true from Bool.noConfusion)]
  rw [hlook]
  dsimp only
  rw [if_pos ht, if_pos hge, if_pos hloop]

/-- One sprite tick that advances past the end of a non-looping clip
clamps the index to the last frame and marks the clip finished. -/
theorem sprite_step_clamp (s : AnimatedSprite) (name : String) (anim : AnimClip)
    (now : ℚ) (hcur : s.current_animation = some name)
    (hfin : s.animation_finished = false)
    (hlook : s.animations.lookup name = some anim)
    (ht : anim.duration ≤ now - s.last_frame_time)
    (hge : anim.frames.length ≤ s.current_frame + 1)
    (hloop : anim.loop = false) :
    s.update now = { s with current_frame := anim.frames.length - 1
                            last_frame_time := now
                            animation_finished := true } := by
  unfold AnimatedSprite.update
  rw [hcur]
  dsimp only
  rw [hfin]
  rw [if_neg (show ¬ false = true from Bool.noConfusion)]
  rw [hlook]
  dsimp only
  rw [if_pos ht, if_pos hge]
  rw [hloop]
  rw [if_neg (show ¬ false = true from Bool.noConfusion)]

/-- A finished sprite ignores further ticks entirely. -/
theorem sprite_update_finished (s : AnimatedSprite) (name : String) (now : ℚ)
    (hcur : s.current_animation = some name)
    (hfin : s.animation_finished = true) :
    s.update now = s := by
  unfold AnimatedSprite.update
  rw [hcur]
  dsimp only
  rw [hfin]
  rw [if_pos rfl]

/-- Claim C8: a 3-frame looping clip of duration 0.1 s starting at index 0,
ticked four times with each tick at least 0.1 s after the previous frame
advance, walks 0→1→2→0→1 and ends back at index 1 (wraparound); a
non-looping clip ticked past its last frame clamps to the final index,
reports finished, and stays pinned there for every later tick. -/
theorem c8_loop_wraparound_and_clamp :
    (∀ (s : AnimatedSprite) (name : String) (anim : AnimClip) (t1 t2 t3 t4 : ℚ),
      s.current_animation = some name →
      s.animations.lookup name = some anim →
      anim.frames.length = 3 → anim.duration = 1/10 → anim.loop = true →
      s.current_frame = 0 → s.animation_finished = false →
      1/10 ≤ t1 - s.last_frame_time → 1/10 ≤ t2 - t1 → 1/10 ≤ t3 - t2 →
      1/10 ≤ t4 - t3 →
      (s.update t1).current_frame = 1 ∧
      ((s.update t1).update t2).current_frame = 2 ∧
      (((s.update t1).update t2).update t3).current_frame = 0 ∧
      ((((s.update t1).update t2).update t3).update t4).current_frame = 1) ∧
    (∀ (s : AnimatedSprite) (name : String) (anim : AnimClip) (now t5 : ℚ),
      s.current_animation = some name →
      s.animations.lookup name = some anim →
      anim.loop = false → s.animation_finished = false →
      anim.duration ≤ now - s.last_frame_time →
      anim.frames.length ≤ s.current_frame + 1 →
      (s.update now).current_frame = anim.frames.length - 1 ∧
      (s.update now).animation_finished = true ∧
      (s.update now).update t5 = s.update now) := by
  constructor
  · intro s name anim t1 t2 t3 t4 hcur hlook hlen hdur hloop hframe hfin h1 h2 h3 h4
    have e1 : s.update t1 = { s with current_frame := 1, last_frame_time := t1 } := by
      have := sprite_step_advance s name anim t1 hcur hfin hlook
        (by rw [hdur]; exact h1) (by omega)
      rw [hframe] at this
      exact this
    have e2 : (s.update t1).update t2
        = { s with current_frame := 2, last_frame_time := t2 } := by
      rw [e1]
      exact sprite_step_advance _ name anim t2 hcur hfin hlook
        (by rw [hdur]; dsimp only; linarith) (by dsimp only; omega)
    have e3 : ((s.update t1).update t2).update t3
        = { s with current_frame := 0, last_frame_time := t3 } := by
      rw [e2]
      exact sprite_step_wrap _ name anim t3 hcur hfin hlook
        (by rw [hdur]; dsimp only; linarith) (by dsimp only; omega) hloop
    have e4 : (((s.update t1).update t2).update t3).update t4
        = { s with current_frame := 1, last_frame_time := t4 } := by
      rw [e3]
      exact sprite_step_advance _ name anim t4 hcur hfin hlook
        (by rw [hdur]; dsimp only; linarith) (by dsimp only; omega)
    rw [e4, e3, e2, e1]
    exact ⟨rfl, rfl, rfl, rfl⟩
  · intro s name anim now t5 hcur hlook hloop hfin ht hge
    have ec := sprite_step_clamp s name anim now hcur hfin hlook ht hge hloop
    rw [ec]
    refine ⟨rfl, rfl, ?_⟩
    exact sprite_update_finished _ name t5 hcur rfl

/-- Witness for C8: a concrete 3-frame looping clip ticked at 0.1 s
intervals ends at index 1, and the sword's non-looping attack clip, ticked
once past the end from its final frame, pins and finishes. -/
theorem c8_loop_wraparound_and_clamp_witness :
    ((((({ animations := [("spin", ⟨[(0,0),(0,1),(0,2)], 1/10, true⟩)]
           current_animation := some "spin", current_frame := 0
           last_frame_time := 0, animation_finished := false } :
          AnimatedSprite).update (1/10)).update (2/10)).update (3/10)).update
        (4/10)).current_frame = 1 ∧
    (({ animations := sword_animations
        current_animation := some "attack_left", current_frame := 4
        last_frame_time := 0, animation_finished := false } :
        AnimatedSprite).update 1).current_frame = 4 ∧
    (({ animations := sword_animations
        current_animation := some "attack_left", current_frame := 4
        last_frame_time := 0, animation_finished := false } :
        AnimatedSprite).update 1).animation_finished = true := by
  refine ⟨?_, ?_, ?_⟩
  · exact (c8_loop_wraparound_and_clamp.1
      { animations := [("spin", ⟨[(0,0),(0,1),(0,2)], 1/10, true⟩)]
        current_animation := some "spin", current_frame := 0
        last_frame_time := 0, animation_finished := false }
      "spin" ⟨[(0,0),(0,1),(0,2)], 1/10, true⟩
      (1/10) (2/10) (3/10) (4/10) rfl rfl rfl rfl rfl rfl rfl
      (by decide) (by decide) (by decide) (by decide)).2.2.2
  · exact (c8_loop_wraparound_and_clamp.2
      { animations := sword_animations
        current_animation := some "attack_left", current_frame := 4
        last_frame_time := 0, animation_finished := false }
      "attack_left" ⟨[(0,0),(0,1),(0,2),(0,3),(0,4)], 1/10, false⟩ 1 2
      rfl (by decide) rfl rfl (by decide) (by decide)).1
  · exact (c8_loop_wraparound_and_clamp.2
      { animations := sword_animations
        current_animation := some "attack_left", current_frame := 4
        last_frame_time := 0, animation_finished := false }
      "attack_left" ⟨[(0,0),(0,1),(0,2),(0,3),(0,4)], 1/10, false⟩ 1 2
      rfl (by decide) rfl rfl (by decide) (by decide)).2.1

/-- Witness for the amended C2: a cooldown-gated call is rejected with the
player fully unchanged. -/
theorem c2_move_rejected_state_witness :
    ((mkPlayer 0 0 0).move 1 0 320 240 (1/10)).1 = false ∧
    ((mkPlayer 0 0 0).move 1 0 320 240 (1/10)).2.x = (mkPlayer 0 0 0).x :=
  ⟨by decide, ((c2_move_rejected_state (mkPlayer 0 0 0) 1 0 320 240 (1/10)).1
    (by decide)).1⟩

end ClaimProofs

end Dngn
